import Mathlib

/-
  Shallow embedding of src/main.py (jobflow-backend): the authentication and
  authorization layer (password hashing, token issuance and validation, the
  bearer-token gateway) and the job CRUD handlers, translated from the source.

  Conventions of the embedding:
  * Machine time is a natural number of seconds (the POSIX clock used by the
    JWT library when it serialises the exp claim).
  * The SHA-256 hexdigest from hashlib is an uninterpreted parameter
    sha256_hexdigest of each definition that calls it: the source treats it
    as an opaque digest function, and the claims about it are stated under
    explicit collision-freeness hypotheses.
  * A signed JWT is modelled as a record carrying its payload, its exp claim
    and the signing key and algorithm; jwt_decode models jose jwt.decode,
    which fails on a key mismatch or a disallowed algorithm, and whose exp
    validation rejects exactly when exp is strictly below the current time
    (python-jose _validate_exp raises only when exp < now with zero leeway).
  * The FastAPI HTTPBearer dependency with auto_error raises status 403 with
    detail Not authenticated when the Authorization header is absent or has
    an empty credential part; that library behaviour is modelled verbatim.
  * Database tables are lists of records; each handler returns its response
    paired with the table state after the request, so that an error response
    leaving the table untouched is visible in the second component.
  * A Python dict body is a record of optional fields; an absent key makes
    the subscript raise KeyError, modelled as the error of an Except value
    naming the missing key (FastAPI turns such an uncaught exception into a
    500 server error, not a 400 validation response).
-/

namespace JobFlow

/-- SECRET_KEY from src/main.py line 14. -/
def SECRET_KEY : String := "jobflow-secret-key-2026-change-in-production"

/-- ALGORITHM from src/main.py line 15. -/
def ALGORITHM : String := "HS256"

/-- ACCESS_TOKEN_EXPIRE_MINUTES from src/main.py line 16. -/
def ACCESS_TOKEN_EXPIRE_MINUTES : Nat := 10080

/-- hash_password (src/main.py lines 98-99): the hexdigest of the SHA-256 of
the password, with the digest function passed as a parameter. -/
def hash_password (sha256_hexdigest : String → String) (password : String) : String :=
  sha256_hexdigest password

/-- verify_password (src/main.py lines 101-102): equality of the recomputed
hash with the stored one. -/
def verify_password (sha256_hexdigest : String → String)
    (plain_password hashed_password : String) : Bool :=
  hash_password sha256_hexdigest plain_password == hashed_password

/-- The JWT claims dictionary built by the handlers: a user_id entry that
payload.get may find missing. -/
structure TokenPayload where
  user_id : Option Nat

/-- A signed JWT as produced by jose jwt.encode: payload, absolute expiry in
seconds, and the key and algorithm it was signed with. -/
structure Token where
  payload : TokenPayload
  exp : Nat
  key : String
  alg : String

/-- create_access_token (src/main.py lines 104-108): copies the payload, sets
exp to now plus ACCESS_TOKEN_EXPIRE_MINUTES, and signs with SECRET_KEY and
ALGORITHM. Time is in seconds, hence the factor 60. -/
def create_access_token (now : Nat) (data : TokenPayload) : Token :=
  { payload := data
    exp := now + ACCESS_TOKEN_EXPIRE_MINUTES * 60
    key := SECRET_KEY
    alg := ALGORITHM }

/-- An HTTPException response: status code and detail string. -/
structure HTTPError where
  status : Nat
  detail : String

/-- jose jwt.decode: signature verification fails unless the token was signed
with the given key; the algorithm must be among the allowed ones; the exp
claim is rejected exactly when exp < now (python-jose raises
ExpiredSignatureError only on a strict comparison, with zero leeway). -/
def jwt_decode (token : Token) (key : String) (algorithms : List String)
    (now : Nat) : Except String TokenPayload :=
  if token.key ≠ key then
    .error "Signature verification failed."
  else if token.alg ∉ algorithms then
    .error "The specified alg value is not allowed"
  else if token.exp < now then
    .error "Signature has expired."
  else
    .ok token.payload

/-- get_current_user (src/main.py lines 110-119): decode the bearer token with
SECRET_KEY; any JWTError, or a missing user_id entry in the payload, yields a
401 Invalid token response; otherwise the payload user_id is returned. -/
def get_current_user (credentials : Token) (now : Nat) : Except HTTPError Nat :=
  match jwt_decode credentials SECRET_KEY [ALGORITHM] now with
  | .error _ => .error { status := 401, detail := "Invalid token" }
  | .ok payload =>
    match payload.user_id with
    | none => .error { status := 401, detail := "Invalid token" }
    | some user_id => .ok user_id

/-- The parsed Authorization header of a request: the scheme before the first
space and, when non-empty, the credential part after it. -/
structure BearerAuthorization where
  scheme : String
  credentials : Option Token

/-- An incoming HTTP request, reduced to the Authorization header the security
dependency inspects. -/
structure Request where
  authorization : Option BearerAuthorization

/-- The HTTPBearer dependency (src/main.py line 17, fastapi.security.http):
with auto_error, a missing header, an empty scheme or an empty credential part
raises 403 Not authenticated, and a scheme other than bearer raises 403
Invalid authentication credentials; otherwise the credential is handed on. -/
def HTTPBearer_check (r : Request) : Except HTTPError Token :=
  match r.authorization with
  | none => .error { status := 403, detail := "Not authenticated" }
  | some auth =>
    match auth.credentials with
    | none => .error { status := 403, detail := "Not authenticated" }
    | some tok =>
      if auth.scheme = "" then
        .error { status := 403, detail := "Not authenticated" }
      else if auth.scheme.toLower ≠ "bearer" then
        .error { status := 403, detail := "Invalid authentication credentials" }
      else
        .ok tok

/-- A row of the jobs table (src/main.py lines 77-86); applied_date is kept as
its string form. -/
structure Job where
  id : Nat
  company : String
  role : String
  status : String
  applied_date : String
  user_id : Nat

/-- A row of the users table (src/main.py lines 67-75). -/
structure User where
  id : Nat
  username : String
  email : String
  password_hash : String

/-- The UserSignup request model (src/main.py lines 20-23). -/
structure UserSignup where
  username : String
  email : String
  password : String

/-- signup (src/main.py lines 127-168): Python truthiness check on the three
fields, the two length checks, the duplicate lookup on email or username, then
the insert and token issuance; every raised HTTPException rolls back, leaving
the users table unchanged. Returns the response and the table afterwards. -/
def signup (sha256_hexdigest : String → String) (user : UserSignup)
    (users : List User) (next_id now : Nat) :
    Except HTTPError (Token × User) × List User :=
  if user.username = "" ∨ user.email = "" ∨ user.password = "" then
    (.error { status := 400, detail := "All fields required" }, users)
  else if user.username.length < 3 then
    (.error { status := 400, detail := "Username must be at least 3 characters" }, users)
  else if user.password.length < 6 then
    (.error { status := 400, detail := "Password must be at least 6 characters" }, users)
  else if users.any fun db => db.email == user.email || db.username == user.username then
    (.error { status := 400, detail := "User already exists" }, users)
  else
    let hashed_pw := hash_password sha256_hexdigest user.password
    let new_user : User :=
      { id := next_id, username := user.username, email := user.email
        password_hash := hashed_pw }
    let token := create_access_token now { user_id := some next_id }
    (.ok (token, new_user), users ++ [new_user])

/-- get_jobs (src/main.py lines 194-202): resolve the caller through the
security dependency and get_current_user, then return the rows of the jobs
table owned by that caller, ordered by applied_date descending. -/
def get_jobs (r : Request) (now : Nat) (jobs : List Job) :
    Except HTTPError (List Job) := do
  let tok ← HTTPBearer_check r
  let user_id ← get_current_user tok now
  .ok (((jobs.filter fun j => j.user_id == user_id).mergeSort
    fun a b => b.applied_date ≤ a.applied_date))

/-- The untyped dict body of the job endpoints: each expected key may be
absent. -/
structure JobBody where
  company : Option String
  role : Option String
  status : Option String
  applied_date : Option String

/-- A Python dict subscript: raises KeyError naming the key when absent. -/
def getItem (v : Option String) (key : String) : Except String String :=
  match v with
  | none => .error key
  | some s => .ok s

/-- The tuple (job["company"], job["role"], job["status"], job["applied_date"])
built by add_job and update_job, with subscripts evaluated left to right; the
first missing key raises. -/
def extract_job_fields (job : JobBody) :
    Except String (String × String × String × String) := do
  let company ← getItem job.company "company"
  let role ← getItem job.role "role"
  let status ← getItem job.status "status"
  let applied_date ← getItem job.applied_date "applied_date"
  pure (company, role, status, applied_date)

/-- add_job (src/main.py lines 205-216): the dict subscripts run while the
execute arguments are built, so a missing key raises before any SQL runs and
no row is inserted; otherwise a row is inserted for the caller. -/
def add_job (job : JobBody) (user_id next_id : Nat) (jobs : List Job) :
    Except String String × List Job :=
  match extract_job_fields job with
  | .error k => (.error k, jobs)
  | .ok (company, role, status, applied_date) =>
    (.ok "Job added",
      jobs ++ [{ id := next_id, company := company, role := role
                 status := status, applied_date := applied_date
                 user_id := user_id }])

/-- delete_job (src/main.py lines 219-227): DELETE WHERE id and user_id both
match; the confirmation message is returned whatever the number of rows
affected. -/
def delete_job (job_id user_id : Nat) (jobs : List Job) :
    String × List Job :=
  ("Deleted", jobs.filter fun j => !(j.id == job_id && j.user_id == user_id))

/-- update_job (src/main.py lines 230-241): same dict subscripts as add_job,
then UPDATE of the four columns WHERE id and user_id both match; rows not
matching both are untouched and the confirmation is returned regardless. -/
def update_job (job_id : Nat) (job : JobBody) (user_id : Nat)
    (jobs : List Job) : Except String String × List Job :=
  match extract_job_fields job with
  | .error k => (.error k, jobs)
  | .ok (company, role, status, applied_date) =>
    (.ok "Updated",
      jobs.map fun j =>
        if j.id == job_id && j.user_id == user_id then
          { j with company := company, role := role, status := status
                   applied_date := applied_date }
        else j)

/-- C1: for every password p, verify(p, hash(p)) is true; and for every pair
of distinct passwords p1 ≠ p2 whose SHA-256 digests do not collide,
verify(p1, hash(p2)) is false. -/
theorem verify_password_roundtrip_and_distinct
    (sha256_hexdigest : String → String) (p p1 p2 : String)
    (hne : p1 ≠ p2) (hcoll : sha256_hexdigest p1 ≠ sha256_hexdigest p2) :
    verify_password sha256_hexdigest p (hash_password sha256_hexdigest p) = true ∧
    verify_password sha256_hexdigest p1 (hash_password sha256_hexdigest p2) = false := by
  constructor
  · simp [verify_password, hash_password]
  · simpa [verify_password, hash_password] using hcoll

/-- Witness for C1 at the identity digest and the passwords a and b. -/
theorem verify_password_roundtrip_and_distinct_witness :
    (("a" : String) ≠ "b") ∧
    (verify_password id "a" (hash_password id "a") = true ∧
     verify_password id "a" (hash_password id "b") = false) :=
  ⟨by decide, verify_password_roundtrip_and_distinct id "a" "a" "b"
    (by decide) (by decide)⟩

/-- C2 evidence: hash_password is exactly the deterministic, unsalted SHA-256
hexdigest of the plaintext, so two invocations on the same plaintext always
produce the same verifier — there is no salt and no adaptive work factor. -/
theorem hash_password_deterministic_unsalted_sha256
    (sha256_hexdigest : String → String) (p : String) :
    hash_password sha256_hexdigest p = sha256_hexdigest p ∧
    hash_password sha256_hexdigest p = hash_password sha256_hexdigest p :=
  ⟨rfl, rfl⟩

/-- C3: a token issued by create_access_token for user id u, validated at the
issuance instant with the process-wide key, resolves to exactly u. -/
theorem issued_token_validates_to_user (u now : Nat) :
    get_current_user (create_access_token now { user_id := some u }) now =
      .ok u := by
  simp [get_current_user, jwt_decode, create_access_token]

/-- C4 counterexample: a token issued at time 0 and validated exactly at its
encoded expiry instant (10080 minutes later) is still accepted, because the
JWT library rejects only when exp is strictly below the current time. -/
theorem token_accepted_at_exact_expiry :
    get_current_user (create_access_token 0 { user_id := some 7 })
      (ACCESS_TOKEN_EXPIRE_MINUTES * 60) = .ok 7 := by
  simp [get_current_user, jwt_decode, create_access_token]

/-- A decode against the signing key succeeds when the key and algorithm match
and the expiry claim is not strictly below the clock. -/
theorem jwt_decode_ok (tok : Token) (now : Nat)
    (hk : tok.key = SECRET_KEY) (ha : tok.alg = ALGORITHM)
    (he : ¬ tok.exp < now) :
    jwt_decode tok SECRET_KEY [ALGORITHM] now = .ok tok.payload := by
  have hmem : tok.alg ∈ [ALGORITHM] := by rw [ha]; exact List.mem_cons_self _ _
  unfold jwt_decode
  rw [if_neg fun hcon => hcon hk, if_neg fun hcon => hcon hmem, if_neg he]

/-- C4 amended: validation at an instant strictly past the encoded expiry
(issue time plus 10080 minutes) fails with 401, while validation at the expiry
instant itself still succeeds. -/
theorem token_rejected_strictly_after_expiry (u t now now2 : Nat)
    (h : t + ACCESS_TOKEN_EXPIRE_MINUTES * 60 < now)
    (h2 : now2 = t + ACCESS_TOKEN_EXPIRE_MINUTES * 60) :
    get_current_user (create_access_token t { user_id := some u }) now =
      .error { status := 401, detail := "Invalid token" } ∧
    get_current_user (create_access_token t { user_id := some u }) now2 =
      .ok u := by
  constructor
  · simp [get_current_user, jwt_decode, create_access_token, h]
  · have he : ¬ (create_access_token t { user_id := some u }).exp < now2 := by
      rw [h2]
      exact Nat.lt_irrefl _
    have hd := jwt_decode_ok (create_access_token t { user_id := some u })
      now2 rfl rfl he
    unfold get_current_user
    rw [hd]
    rfl

/-- Witness for C4 amended: user 1, issued at 0, validated one second after
the 604800-second TTL and exactly at the TTL. -/
theorem token_rejected_strictly_after_expiry_witness :
    (0 + ACCESS_TOKEN_EXPIRE_MINUTES * 60 < ACCESS_TOKEN_EXPIRE_MINUTES * 60 + 1) ∧
    (ACCESS_TOKEN_EXPIRE_MINUTES * 60 = 0 + ACCESS_TOKEN_EXPIRE_MINUTES * 60) ∧
    (get_current_user (create_access_token 0 { user_id := some 1 })
        (ACCESS_TOKEN_EXPIRE_MINUTES * 60 + 1) =
       .error { status := 401, detail := "Invalid token" } ∧
     get_current_user (create_access_token 0 { user_id := some 1 })
        (ACCESS_TOKEN_EXPIRE_MINUTES * 60) = .ok 1) :=
  ⟨by decide, by decide, token_rejected_strictly_after_expiry 1 0
    (ACCESS_TOKEN_EXPIRE_MINUTES * 60 + 1) (ACCESS_TOKEN_EXPIRE_MINUTES * 60)
    (by decide) (by decide)⟩

/-- C5: a token signed with any key other than the configured SECRET_KEY is
rejected with 401, whatever its payload, algorithm or expiry. -/
theorem wrong_key_token_rejected (tok : Token) (now : Nat)
    (h : tok.key ≠ SECRET_KEY) :
    get_current_user tok now =
      .error { status := 401, detail := "Invalid token" } := by
  simp [get_current_user, jwt_decode, h]

/-- Witness for C5: a token signed with the key other-key. -/
theorem wrong_key_token_rejected_witness :
    (Token.key { payload := { user_id := some 1 }, exp := 999999999
                 key := "other-key", alg := "HS256" } ≠ SECRET_KEY) ∧
    get_current_user
      { payload := { user_id := some 1 }, exp := 999999999
        key := "other-key", alg := "HS256" } 0 =
      .error { status := 401, detail := "Invalid token" } :=
  ⟨by decide, wrong_key_token_rejected
    { payload := { user_id := some 1 }, exp := 999999999
      key := "other-key", alg := "HS256" } 0 (by decide)⟩

/-- C6: a signup whose username is shorter than 3 or whose password is shorter
than 6 fails with a 400 validation response — one of the three field
validation messages, never the duplicate message — and the users table is
returned unchanged. -/
theorem short_signup_rejected_without_write
    (sha256_hexdigest : String → String) (user : UserSignup)
    (users : List User) (next_id now : Nat)
    (h : user.username.length < 3 ∨ user.password.length < 6) :
    ∃ d, signup sha256_hexdigest user users next_id now =
        (.error { status := 400, detail := d }, users) ∧
      (d = "All fields required" ∨
       d = "Username must be at least 3 characters" ∨
       d = "Password must be at least 6 characters") := by
  by_cases h0 : user.username = "" ∨ user.email = "" ∨ user.password = ""
  · exact ⟨"All fields required", by simp [signup, h0], Or.inl rfl⟩
  · by_cases h1 : user.username.length < 3
    · exact ⟨"Username must be at least 3 characters",
        by simp [signup, h0, h1], Or.inr (Or.inl rfl)⟩
    · have h2 : user.password.length < 6 := by tauto
      exact ⟨"Password must be at least 6 characters",
        by simp [signup, h0, h1, h2], Or.inr (Or.inr rfl)⟩

/-- Witness for C6: username ab with a long enough password. -/
theorem short_signup_rejected_without_write_witness :
    ((("ab" : String).length < 3 ∨ (("secret1" : String)).length < 6)) ∧
    ∃ d, signup id { username := "ab", email := "a@x.com", password := "secret1" }
        [] 1 0 = (.error { status := 400, detail := d }, []) ∧
      (d = "All fields required" ∨
       d = "Username must be at least 3 characters" ∨
       d = "Password must be at least 6 characters") :=
  ⟨by decide, short_signup_rejected_without_write id
    { username := "ab", email := "a@x.com", password := "secret1" } [] 1 0
    (by decide)⟩

/-- C7 counterexample: against a table already holding alice with email
a@x.com, a signup that duplicates both the email and the username but carries
a one-character password fails with the password validation message, not with
the duplicate-credential message — so a duplicate signup does not always fail
with DuplicateCredential. -/
theorem duplicate_signup_with_short_password_gets_validation_error :
    (signup id { username := "alice", email := "a@x.com", password := "x" }
        [{ id := 1, username := "alice", email := "a@x.com", password_hash := "h" }]
        2 0).1 =
      .error { status := 400, detail := "Password must be at least 6 characters" } ∧
    ("Password must be at least 6 characters" : String) ≠ "User already exists" := by
  constructor
  · rfl
  · decide

/-- C7 amended: a signup that passes the field validations (username length at
least 3, password length at least 6, non-empty email) and whose email or
username equals that of an existing row fails with the 400 duplicate message
and returns the users table unchanged, so no row and no token are produced. -/
theorem duplicate_signup_rejected_without_write
    (sha256_hexdigest : String → String) (user : UserSignup)
    (users : List User) (next_id now : Nat)
    (h3 : 3 ≤ user.username.length) (h6 : 6 ≤ user.password.length)
    (he : user.email ≠ "")
    (hd : ∃ db ∈ users, db.email = user.email ∨ db.username = user.username) :
    signup sha256_hexdigest user users next_id now =
      (.error { status := 400, detail := "User already exists" }, users) := by
  have hu : user.username ≠ "" := by
    intro hu
    rw [hu] at h3
    simp at h3
  have hp : user.password ≠ "" := by
    intro hp
    rw [hp] at h6
    simp at h6
  have hany : (users.any fun db =>
      db.email == user.email || db.username == user.username) = true := by
    rcases hd with ⟨db, hmem, hor⟩
    refine List.any_eq_true.mpr ⟨db, hmem, ?_⟩
    rcases hor with h | h <;> simp [h]
  simp [signup, hu, he, hp, Nat.not_lt.mpr h3, Nat.not_lt.mpr h6, hany]

/-- Witness for C7 amended: bob signs up with the email already used by
alice. -/
theorem duplicate_signup_rejected_without_write_witness :
    (3 ≤ ("bob" : String).length) ∧ (6 ≤ ("secret1" : String).length) ∧
    (("a@x.com" : String) ≠ "") ∧
    (∃ db ∈ [{ id := 1, username := "alice", email := "a@x.com",
               password_hash := "h" : User }],
        db.email = "a@x.com" ∨ db.username = "bob") ∧
    signup id { username := "bob", email := "a@x.com", password := "secret1" }
        [{ id := 1, username := "alice", email := "a@x.com", password_hash := "h" }]
        2 0 =
      (.error { status := 400, detail := "User already exists" },
       [{ id := 1, username := "alice", email := "a@x.com", password_hash := "h" }]) :=
  ⟨by decide, by decide, by decide, by decide,
   duplicate_signup_rejected_without_write id
     { username := "bob", email := "a@x.com", password := "secret1" }
     [{ id := 1, username := "alice", email := "a@x.com", password_hash := "h" }]
     2 0 (by decide) (by decide) (by decide) (by decide)⟩

/-- C8 counterexample: a request to GET /jobs carrying no Authorization header
is rejected by the HTTPBearer dependency with status 403 Not authenticated,
not with 401 as claimed. -/
theorem missing_header_gets_403_not_401 :
    get_jobs { authorization := none } 0 [] =
      .error { status := 403, detail := "Not authenticated" } ∧
    (403 : Nat) ≠ 401 := by
  constructor
  · rfl
  · decide

/-- C8 amended: every request to the protected GET /jobs with no Authorization
header is rejected with 403 Not authenticated by the security dependency, and
the handler body never runs — no job rows are computed or returned. -/
theorem missing_header_rejected (r : Request) (now : Nat) (jobs : List Job)
    (h : r.authorization = none) :
    get_jobs r now jobs =
      .error { status := 403, detail := "Not authenticated" } := by
  rcases r with ⟨auth⟩
  cases auth with
  | none => rfl
  | some a => simp at h

/-- Witness for C8 amended: the bare request against a one-row table. -/
theorem missing_header_rejected_witness :
    (Request.authorization { authorization := none } = none) ∧
    get_jobs { authorization := none } 5
        [{ id := 1, company := "Acme", role := "Eng", status := "applied",
           applied_date := "2024-01-01", user_id := 1 }] =
      .error { status := 403, detail := "Not authenticated" } :=
  ⟨rfl, missing_header_rejected { authorization := none } 5
    [{ id := 1, company := "Acme", role := "Eng", status := "applied",
       applied_date := "2024-01-01", user_id := 1 }] rfl⟩

/-- A map whose function fixes every member of a list leaves the list
unchanged. -/
theorem list_map_mem_id {α : Type} (f : α → α) (l : List α)
    (h : ∀ a ∈ l, f a = a) : l.map f = l := by
  induction l with
  | nil => rfl
  | cons x xs ih =>
    rw [List.map_cons, h x (by simp), ih fun a ha => h a (by simp [ha])]

/-- C9: job mutations are scoped to the caller. If no row has both the given
id and the caller as owner, DELETE and PUT return their success confirmations
while the jobs table is unchanged; and in every case, every row owned by a
different user survives both operations untouched. -/
theorem job_mutations_scoped_to_caller (job_id uid : Nat) (jobs : List Job)
    (c r s d : String) :
    ((∀ j ∈ jobs, ¬(j.id = job_id ∧ j.user_id = uid)) →
      delete_job job_id uid jobs = ("Deleted", jobs) ∧
      update_job job_id
          { company := some c, role := some r, status := some s,
            applied_date := some d } uid jobs = (.ok "Updated", jobs)) ∧
    (∀ j ∈ jobs, j.user_id ≠ uid →
      j ∈ (delete_job job_id uid jobs).2 ∧
      j ∈ (update_job job_id
          { company := some c, role := some r, status := some s,
            applied_date := some d } uid jobs).2) := by
  constructor
  · intro h
    constructor
    · unfold delete_job
      rw [List.filter_eq_self.mpr]
      intro j hj
      have := h j hj
      simp only [Bool.not_eq_true']
      simp only [Bool.and_eq_true, beq_iff_eq] at *
      simpa using this
    · unfold update_job extract_job_fields getItem
      simp only [bind, Except.bind, pure, Except.pure]
      rw [list_map_mem_id]
      intro j hj
      have := h j hj
      have hcond : (j.id == job_id && j.user_id == uid) = false := by
        simp only [Bool.and_eq_true, beq_iff_eq, Bool.not_eq_true] at *
        by_cases h1 : j.id = job_id
        · simp [h1]
          exact fun h2 => this ⟨h1, h2⟩
        · simp [h1]
      rw [hcond]
      simp
  · intro j hj hne
    have hcond : (j.id == job_id && j.user_id == uid) = false := by
      by_cases h1 : j.id = job_id <;> simp [h1, hne]
    constructor
    · unfold delete_job
      exact List.mem_filter.mpr ⟨hj, by simp [hcond]⟩
    · unfold update_job extract_job_fields getItem
      simp only [bind, Except.bind, pure, Except.pure]
      exact List.mem_map.mpr ⟨j, hj, by simp [hcond]⟩

/-- Witness for C9: deleting and updating job id 5 as user 1 against a table
holding only job 2 owned by user 7 leaves the table as it was. -/
theorem job_mutations_scoped_to_caller_witness :
    delete_job 5 1
        [{ id := 2, company := "Acme", role := "Eng", status := "applied",
           applied_date := "2024-01-01", user_id := 7 }] =
      ("Deleted",
        [{ id := 2, company := "Acme", role := "Eng", status := "applied",
           applied_date := "2024-01-01", user_id := 7 }]) ∧
    update_job 5
        { company := some "N", role := some "R", status := some "S",
          applied_date := some "D" } 1
        [{ id := 2, company := "Acme", role := "Eng", status := "applied",
           applied_date := "2024-01-01", user_id := 7 }] =
      (.ok "Updated",
        [{ id := 2, company := "Acme", role := "Eng", status := "applied",
           applied_date := "2024-01-01", user_id := 7 }]) :=
  (job_mutations_scoped_to_caller 5 1
    [{ id := 2, company := "Acme", role := "Eng", status := "applied",
       applied_date := "2024-01-01", user_id := 7 }] "N" "R" "S" "D").1
    (by decide)

/-- Missing keys make the field extraction raise the first absent key. -/
theorem extract_job_fields_error_of_missing (c r s d : Option String)
    (h : c = none ∨ r = none ∨ s = none ∨ d = none) :
    ∃ k, extract_job_fields
        { company := c, role := r, status := s, applied_date := d } =
      .error k := by
  cases c with
  | none => exact ⟨"company", rfl⟩
  | some cv =>
    cases r with
    | none => exact ⟨"role", rfl⟩
    | some rv =>
      cases s with
      | none => exact ⟨"status", rfl⟩
      | some sv =>
        cases d with
        | none => exact ⟨"applied_date", rfl⟩
        | some dv => simp at h

/-- C10: the untyped dict bodies of POST /jobs and PUT /jobs are total only
when the keys company, role, status and applied_date are all present: a body
missing any of them makes both handlers raise an uncaught key-lookup error —
surfaced by the framework as a server error, not a 400 — and the jobs table
is returned unchanged, so no row is written. -/
theorem missing_body_key_raises_without_write (job : JobBody)
    (job_id uid next_id : Nat) (jobs : List Job)
    (h : job.company = none ∨ job.role = none ∨ job.status = none ∨
         job.applied_date = none) :
    (∃ k, (add_job job uid next_id jobs).1 = .error k) ∧
    (add_job job uid next_id jobs).2 = jobs ∧
    (∃ k, (update_job job_id job uid jobs).1 = .error k) ∧
    (update_job job_id job uid jobs).2 = jobs := by
  rcases job with ⟨c, r, s, d⟩
  obtain ⟨k, hk⟩ := extract_job_fields_error_of_missing c r s d h
  refine ⟨⟨k, ?_⟩, ?_, ⟨k, ?_⟩, ?_⟩ <;>
    simp [add_job, update_job, hk]

/-- Witness for C10: a body lacking the company key. -/
theorem missing_body_key_raises_without_write_witness :
    (∃ k, (add_job
        { company := none, role := some "Eng", status := some "applied",
          applied_date := some "2024-01-01" } 1 1 []).1 = .error k) ∧
    (add_job
        { company := none, role := some "Eng", status := some "applied",
          applied_date := some "2024-01-01" } 1 1 []).2 = [] ∧
    (∃ k, (update_job 5
        { company := none, role := some "Eng", status := some "applied",
          applied_date := some "2024-01-01" } 1 []).1 = .error k) ∧
    (update_job 5
        { company := none, role := some "Eng", status := some "applied",
          applied_date := some "2024-01-01" } 1 []).2 = [] :=
  missing_body_key_raises_without_write
    { company := none, role := some "Eng", status := some "applied",
      applied_date := some "2024-01-01" } 5 1 1 [] (Or.inl rfl)

end JobFlow
